import Mathlib

/-
Verification of the Heatmapper repository (src/xp03_heatmap/heatmapper.py and
src/xp03_heatmap/topo.py) against its natural-language specification.

Modelling conventions:
- Python numbers are modelled as exact rationals; true division is rational
  division, guarded explicitly where Python would raise ZeroDivisionError.
- Fallible Python code is modelled with Except over an exception kind type;
  the order in which the code raises is preserved.
- Pillow drawing is modelled as the list of rectangle-fill commands the code
  issues, in issue order; Image.new with a negative dimension raises
  ValueError, as Pillow does.
- The Python builtins min, max and abs on numbers are modelled by qmin, qmax
  and qabs below (explicit comparisons, so that they evaluate by kernel
  reduction on concrete inputs).
-/

namespace Heatmapper

/-- Kinds of Python exceptions raised on the modelled code paths.
JSONDecodeError is a subclass of ValueError and is modelled as valueError. -/
inductive PyExc where
  | valueError
  | zeroDivisionError
  | indexError
  | typeError
  | keyError
deriving DecidableEq, Repr

deriving instance DecidableEq for Except

/-- Truncation toward zero: the behaviour of the Python int() conversion
applied to a (rational-valued) number. -/
def int_trunc (q : ℚ) : ℤ :=
  if 0 ≤ q then ⌊q⌋ else -⌊-q⌋

/-- The Python builtin min on two numbers (returns the first on ties). -/
def qmin (a b : ℚ) : ℚ := if b < a then b else a

/-- The Python builtin max on two numbers (returns the first on ties). -/
def qmax (a b : ℚ) : ℚ := if a < b then b else a

/-- The Python builtin abs on a number. -/
def qabs (a : ℚ) : ℚ := if a < 0 then -a else a

/-- The Python builtin min over a list. Python raises ValueError on an empty
list; generate_map only reaches the min call with nonempty data, because the
division by the distinct-latitude count raises ZeroDivisionError first, so
the empty case here is given an arbitrary value. -/
def pymin : List ℚ → ℚ
  | [] => 0
  | x :: xs => xs.foldl qmin x

/-- The Python builtin max over a list; same remark as for pymin. -/
def pymax : List ℚ → ℚ
  | [] => 0
  | x :: xs => xs.foldl qmax x

/-- heatmapper.py lines 73-87. Python raises ZeroDivisionError when the
divisor is zero; that is the error branch here. The code has no guard. -/
def calculate_color (height min_height max_height : ℚ) :
    Except PyExc (ℤ × ℤ × ℤ) :=
  if height < 0 then
    let difference := qabs min_height
    if difference = 0 then .error .zeroDivisionError
    else .ok (0, 0, 255 - int_trunc (qabs height / difference * 255))
  else
    let difference := max_height
    if difference = 0 then .error .zeroDivisionError
    else .ok (0, 255 - int_trunc (height / difference * 255), 0)

/-- One topography sample: (latitude, longitude, altitude). -/
def Sample : Type := ℚ × ℚ × ℚ

/-- One Pillow rectangle-fill command: corner coordinates (kept as exact
rationals, as the code passes the unrounded floats to draw.rectangle) and
the fill color. -/
structure DrawCmd where
  x1 : ℚ
  y1 : ℚ
  x2 : ℚ
  y2 : ℚ
  color : ℤ × ℤ × ℤ
deriving DecidableEq, Repr

/-- Sequential mapping of a fallible function over a list, stopping at the
first raised exception: the behaviour of a Python for loop whose body may
raise. -/
def mapE (f : α → Except PyExc β) : List α → Except PyExc (List β)
  | [] => .ok []
  | a :: l =>
    match f a with
    | .error e => .error e
    | .ok b =>
      match mapE f l with
      | .error e => .error e
      | .ok bs => .ok (b :: bs)

/-- The body of the nested loop of heatmapper.py lines 61-64 for column i and
row j: look up all_heights[i + lngCount * j] (IndexError when out of range,
as in Python), compute the color, and issue the rectangle command. -/
def cell_cmd (all_heights : List ℚ) (lngCount : ℕ) (wide high : ℚ)
    (i j : ℕ) : Except PyExc DrawCmd :=
  match all_heights[i + lngCount * j]? with
  | none => .error .indexError
  | some a =>
    match calculate_color a (pymin all_heights) (pymax all_heights) with
    | .error e => .error e
    | .ok c =>
      .ok ⟨(i : ℚ) * wide, (j : ℚ) * high,
           ((i : ℚ) + 1) * wide, ((j : ℚ) + 1) * high, c⟩

instance : Inhabited DrawCmd := ⟨⟨0, 0, 0, 0, (0, 0, 0)⟩⟩

/-- The value produced by a successful cell_cmd call (used to state the
per-cell result of the drawing loop). -/
def cell_cmd_val (all_heights : List ℚ) (lngCount : ℕ) (wide high : ℚ)
    (i j : ℕ) : DrawCmd :=
  match cell_cmd all_heights lngCount wide high i j with
  | .ok d => d
  | .error _ => default

/-- heatmapper.py lines 42-66, the body of the try block of generate_map:
collect the coordinate and altitude lists, take the distinct counts, divide
the image dimensions (ZeroDivisionError on an empty sample list, since the
distinct counts are then 0), create the image (Pillow raises ValueError on a
negative dimension) and issue the rectangle commands of the nested loops.
The resulting value is the list of issued drawing commands. -/
def generate_map_run (topo_data : List Sample) (width height : ℤ) :
    Except PyExc (List DrawCmd) :=
  let all_lats := topo_data.map (fun e => e.1)
  let all_lng := topo_data.map (fun e => e.2.1)
  let all_heights := topo_data.map (fun e => e.2.2)
  let latCount := all_lats.dedup.length
  let lngCount := all_lng.dedup.length
  if latCount = 0 then .error .zeroDivisionError
  else if lngCount = 0 then .error .zeroDivisionError
  else
    let high : ℚ := (height : ℚ) / (latCount : ℚ)
    let wide : ℚ := (width : ℚ) / (lngCount : ℚ)
    if width < 0 ∨ height < 0 then .error .valueError
    else
      match mapE (fun i => mapE (cell_cmd all_heights lngCount wide high i)
              (List.range latCount)) (List.range lngCount) with
      | .error e => .error e
      | .ok rows => .ok rows.flatten

/-- heatmapper.py lines 8-70: generate_map returns True on success and
catches only ValueError (returning False); any other exception escapes.
The im.save call happens only on the success path, after every rectangle has
been drawn, so a failing run writes no image file at all. -/
def generate_map (topo_data : List Sample) (width height : ℤ) :
    Except PyExc Bool :=
  match generate_map_run topo_data width height with
  | .ok _ => .ok true
  | .error .valueError => .ok false
  | .error e => .error e

/-- The 12-sample example grid from the generate_map docstring. -/
def ex12 : List Sample :=
  [(10, 10, 1), (10, 12, 1), (10, 14, 2),
   (12, 10, 1), (12, 12, 3), (12, 14, 1),
   (14, 10, 6), (14, 12, 9), (14, 14, 12),
   (16, 10, 1), (16, 12, 1), (16, 14, 3)]

/-- The docstring example with its last sample removed: 11 samples whose
distinct counts still imply a 4 by 3 grid. -/
def ex11 : List Sample :=
  [(10, 10, 1), (10, 12, 1), (10, 14, 2),
   (12, 10, 1), (12, 12, 3), (12, 14, 1),
   (14, 10, 6), (14, 12, 9), (14, 14, 12),
   (16, 10, 1), (16, 12, 1)]

/-- A valid 1 by 2 grid whose altitudes are all at most 0 with maximum
exactly 0: rendering it divides zero by zero in calculate_color. -/
def exZeroMax : List Sample := [(0, 0, 0), (0, 1, -5)]

/-- The default cell size in degrees: the literal 0.0083333 of
heatmapper.py lines 130 and 133, as an exact rational. -/
def default_cell_degrees : ℚ := 83333 / 10000000

/-- heatmapper.py lines 129-133 for one axis: a stride given as 0 is
recomputed as int(max(1, (hi - lo) / 0.0083333 / image_height)); an
image_height of 0 then makes Python raise ZeroDivisionError. A nonzero
stride passes through unchanged. -/
def resolve_stride (stride lo hi : ℚ) (image_height : ℤ) :
    Except PyExc ℚ :=
  if stride = 0 then
    if image_height = 0 then .error .zeroDivisionError
    else .ok ((int_trunc (qmax 1
      ((hi - lo) / default_cell_degrees / (image_height : ℚ))) : ℤ) : ℚ)
  else .ok stride

/-- The auto-stride formula as the specification words it, with round in
place of the int() truncation that the code applies (stated for comparison
with resolve_stride). -/
def claimed_auto_stride (lo hi : ℚ) (image_height : ℤ) : ℤ :=
  max 1 (round ((hi - lo) / default_cell_degrees / (image_height : ℚ)))

/-- The six query parameters of generate_map_with_coordinates
(heatmapper.py lines 122-127). -/
structure TopoParams where
  min_lat : ℚ
  max_lat : ℚ
  lat_stride : ℚ
  min_lng : ℚ
  max_lng : ℚ
  lng_stride : ℚ
deriving DecidableEq, Repr

/-- heatmapper.py lines 122-133: resolve both strides. The longitude stride
also divides by image_height (the design quirk carried from the source). -/
def resolve_params (p : TopoParams) (image_height : ℤ) :
    Except PyExc TopoParams :=
  match resolve_stride p.lat_stride p.min_lat p.max_lat image_height with
  | .error e => .error e
  | .ok ls =>
    match resolve_stride p.lng_stride p.min_lng p.max_lng image_height with
    | .error e => .error e
    | .ok gs => .ok ⟨p.min_lat, p.max_lat, ls, p.min_lng, p.max_lng, gs⟩

/-- The opening curly brace character. -/
def lbrace : Char := Char.ofNat 123

/-- The closing curly brace character. -/
def rbrace : Char := Char.ofNat 125

/-- JSON values as Python json builds them, with numbers restricted to
integers: fractional JSON numbers become Python floats, which are outside
this exact model (the parser below rejects them, shrinking the modelled
payload domain rather than misrepresenting it). -/
inductive JSON where
  | null
  | bool (b : Bool)
  | num (n : ℤ)
  | str (s : String)
  | arr (elems : List JSON)
  | obj (fields : List (String × JSON))

/-- JSON whitespace. -/
def is_ws (c : Char) : Bool := c = ' ' || c = '\t' || c = '\n' || c = '\r'

def skip_ws : List Char → List Char
  | [] => []
  | c :: cs => if is_ws c then skip_ws cs else c :: cs

def digit_val (c : Char) : Option ℕ :=
  if '0' ≤ c ∧ c ≤ '9' then some (c.toNat - 48) else none

def take_digits : List Char → List ℕ × List Char
  | [] => ([], [])
  | c :: cs =>
    match digit_val c with
    | some d =>
      let r := take_digits cs
      (d :: r.1, r.2)
    | none => ([], c :: cs)

def digits_to_nat (ds : List ℕ) : ℕ := ds.foldl (fun a d => a * 10 + d) 0

/-- The integer part of a JSON number: at least one digit, no leading zero
(JSON forbids it), and not followed by a fraction or exponent marker (such
numbers are Python floats, outside this exact-integer model). -/
def parse_int_digits (cs : List Char) : Option (ℕ × List Char) :=
  match take_digits cs with
  | ([], _) => none
  | (ds, rest) =>
    if 1 < ds.length ∧ ds.headD 0 = 0 then none
    else
      match rest with
      | c :: _ =>
        if c = '.' ∨ c = 'e' ∨ c = 'E' then none
        else some (digits_to_nat ds, rest)
      | [] => some (digits_to_nat ds, [])

def parse_num : List Char → Option (ℤ × List Char)
  | '-' :: cs =>
    match parse_int_digits cs with
    | some (n, rest) => some (-(n : ℤ), rest)
    | none => none
  | cs =>
    match parse_int_digits cs with
    | some (n, rest) => some ((n : ℤ), rest)
    | none => none

/-- The two-character escapes of JSON strings. -/
def esc_char (c : Char) : Option Char :=
  if c = '"' then some '"'
  else if c = '\\' then some '\\'
  else if c = '/' then some '/'
  else if c = 'b' then some (Char.ofNat 8)
  else if c = 'f' then some (Char.ofNat 12)
  else if c = 'n' then some '\n'
  else if c = 'r' then some '\r'
  else if c = 't' then some '\t'
  else none

def hex_val (c : Char) : Option ℕ :=
  if '0' ≤ c ∧ c ≤ '9' then some (c.toNat - 48)
  else if 'a' ≤ c ∧ c ≤ 'f' then some (c.toNat - 87)
  else if 'A' ≤ c ∧ c ≤ 'F' then some (c.toNat - 55)
  else none

/-- The body of a JSON string after the opening quote, as Python json
(strict mode) accepts it: raw control characters below 0x20 are rejected;
a uXXXX escape naming a surrogate code point is outside this model (Lean
characters cannot carry lone surrogates). Returns the decoded characters
and the remainder after the closing quote. -/
def parse_string_chars : List Char → Option (List Char × List Char)
  | [] => none
  | '"' :: cs => some ([], cs)
  | '\\' :: c :: cs =>
    (match esc_char c with
     | some e =>
       match parse_string_chars cs with
       | some (s, r) => some (e :: s, r)
       | none => none
     | none =>
       if c = 'u' then
         match cs with
         | a :: b :: d :: e :: cs2 =>
           (match hex_val a, hex_val b, hex_val d, hex_val e with
            | some ha, some hb, some hd, some he =>
              let code := ((ha * 16 + hb) * 16 + hd) * 16 + he
              if 55296 ≤ code ∧ code ≤ 57343 then none
              else
                match parse_string_chars cs2 with
                | some (s, r) => some (Char.ofNat code :: s, r)
                | none => none
            | _, _, _, _ => none)
         | _ => none
       else none)
  | c :: cs =>
    if c.toNat < 32 then none
    else
      match parse_string_chars cs with
      | some (s, r) => some (c :: s, r)
      | none => none

/-- Insert one key-value pair into an association list the way assignment
into a Python dict does: an existing key keeps its position and takes the
new value; a new key goes to the end. -/
def dict_insert : List (String × JSON) → String × JSON →
    List (String × JSON)
  | [], kv => [kv]
  | (k, v) :: rest, kv =>
    if k = kv.1 then (k, kv.2) :: rest else (k, v) :: dict_insert rest kv

/-- Collapse parsed object fields into dict form (duplicate keys: last
value wins, first position kept), as json.loads builds Python dicts. -/
def mk_dict (fields : List (String × JSON)) : List (String × JSON) :=
  fields.foldl dict_insert []

/-- What the recursive-descent JSON reader is currently parsing. -/
inductive PMode where
  | value
  | elems
  | fields

/-- The result of one parse_run call, per mode. -/
inductive PRes where
  | val (v : JSON)
  | elemsRes (vs : List JSON)
  | fieldsRes (fs : List (String × JSON))

/-- Recursive-descent JSON reader (the grammar of Python json.loads, with
integer-only numbers), written as a single function recursing on fuel so
that it evaluates by kernel reduction. elems parses the elements of a
nonempty array up to the closing bracket; fields likewise for an object. -/
def parse_run : ℕ → PMode → List Char → Option (PRes × List Char)
  | 0, _, _ => none
  | fuel + 1, PMode.value, cs =>
    match skip_ws cs with
    | 'n' :: 'u' :: 'l' :: 'l' :: rest => some (PRes.val JSON.null, rest)
    | 't' :: 'r' :: 'u' :: 'e' :: rest =>
      some (PRes.val (JSON.bool true), rest)
    | 'f' :: 'a' :: 'l' :: 's' :: 'e' :: rest =>
      some (PRes.val (JSON.bool false), rest)
    | '"' :: rest =>
      (match parse_string_chars rest with
       | some (s, r) => some (PRes.val (JSON.str (String.mk s)), r)
       | none => none)
    | '[' :: rest =>
      (match skip_ws rest with
       | ']' :: r2 => some (PRes.val (JSON.arr []), r2)
       | r2 =>
         match parse_run fuel PMode.elems r2 with
         | some (PRes.elemsRes vs, r) => some (PRes.val (JSON.arr vs), r)
         | _ => none)
    | c :: rest =>
      if c = lbrace then
        match skip_ws rest with
        | c2 :: r2 =>
          if c2 = rbrace then some (PRes.val (JSON.obj []), r2)
          else
            match parse_run fuel PMode.fields (c2 :: r2) with
            | some (PRes.fieldsRes fs, r) =>
              some (PRes.val (JSON.obj (mk_dict fs)), r)
            | _ => none
        | [] => none
      else
        match parse_num (c :: rest) with
        | some (n, r) => some (PRes.val (JSON.num n), r)
        | none => none
    | [] => none
  | fuel + 1, PMode.elems, cs =>
    match parse_run fuel PMode.value cs with
    | some (PRes.val v, r) =>
      (match skip_ws r with
       | ',' :: r2 =>
         (match parse_run fuel PMode.elems r2 with
          | some (PRes.elemsRes vs, r3) =>
            some (PRes.elemsRes (v :: vs), r3)
          | _ => none)
       | ']' :: r2 => some (PRes.elemsRes [v], r2)
       | _ => none)
    | _ => none
  | fuel + 1, PMode.fields, cs =>
    match skip_ws cs with
    | '"' :: r =>
      (match parse_string_chars r with
       | some (k, r1) =>
         (match skip_ws r1 with
          | ':' :: r2 =>
            (match parse_run fuel PMode.value r2 with
             | some (PRes.val v, r3) =>
               (match skip_ws r3 with
                | ',' :: r4 =>
                  (match parse_run fuel PMode.fields r4 with
                   | some (PRes.fieldsRes fs, r5) =>
                     some (PRes.fieldsRes ((String.mk k, v) :: fs), r5)
                   | _ => none)
                | c :: r4 =>
                  if c = rbrace then
                    some (PRes.fieldsRes [(String.mk k, v)], r4)
                  else none
                | [] => none)
             | _ => none)
          | _ => none)
       | none => none)
    | _ => none

/-- CPython json.loads on a string (integer-number payloads): parse one
value and require only whitespace to remain. The fuel bound exceeds any
possible nesting depth of the input. -/
def json_parse (s : String) : Option JSON :=
  match parse_run (2 * s.length + 2) PMode.value s.toList with
  | some (PRes.val v, rest) => if skip_ws rest = [] then some v else none
  | _ => none

def hex_digit (n : ℕ) : Char :=
  if n < 10 then Char.ofNat (48 + n) else Char.ofNat (87 + n)

def u_escape (n : ℕ) : String :=
  String.mk ['\\', 'u', hex_digit (n / 4096 % 16), hex_digit (n / 256 % 16),
    hex_digit (n / 16 % 16), hex_digit (n % 16)]

/-- CPython json.dumps escaping of one character with the default
ensure_ascii: short escapes for quote, backslash and the common controls;
uXXXX escapes (surrogate pairs above 0xFFFF) for every other character
outside printable ASCII. -/
def dump_char (c : Char) : String :=
  if c = '"' then "\\\""
  else if c = '\\' then "\\\\"
  else if c = Char.ofNat 8 then "\\b"
  else if c = '\t' then "\\t"
  else if c = '\n' then "\\n"
  else if c = Char.ofNat 12 then "\\f"
  else if c = '\r' then "\\r"
  else if c.toNat < 32 ∨ 126 < c.toNat then
    if c.toNat < 65536 then u_escape c.toNat
    else
      u_escape (55296 + (c.toNat - 65536) / 1024) ++
        u_escape (56320 + (c.toNat - 65536) % 1024)
  else String.singleton c

def dump_string (s : String) : String :=
  "\"" ++ String.join (s.toList.map dump_char) ++ "\""

mutual

/-- CPython json.dumps with default options: comma-space and colon-space
separators, ensure_ascii escaping, insertion-ordered object fields. -/
def json_dumps : JSON → String
  | JSON.null => "null"
  | JSON.bool true => "true"
  | JSON.bool false => "false"
  | JSON.num n => toString n
  | JSON.str s => dump_string s
  | JSON.arr es => "[" ++ dumps_elems es ++ "]"
  | JSON.obj fs => "\x7b" ++ dumps_fields fs ++ "\x7d"

def dumps_elems : List JSON → String
  | [] => ""
  | [e] => json_dumps e
  | e :: es => json_dumps e ++ ", " ++ dumps_elems es

def dumps_fields : List (String × JSON) → String
  | [] => ""
  | [(k, v)] => dump_string k ++ ": " ++ json_dumps v
  | (k, v) :: fs =>
    dump_string k ++ ": " ++ json_dumps v ++ ", " ++ dumps_fields fs

end

/-- topo.py lines 65-78, generalised over the file-name type: return None
when the file does not exist; otherwise json.load the contents (raising
JSONDecodeError, a ValueError, on invalid JSON) and return json.dumps of
the loaded value. The round trip re-serializes: the result is the
canonical dump of the parsed value, not necessarily the stored bytes. -/
def read_json_from_file {K : Type} (fs : K → Option String) (filename : K) :
    Except PyExc (Option String) :=
  match fs filename with
  | none => .ok none
  | some contents =>
    match json_parse contents with
    | none => .error .valueError
    | some v => .ok (some (json_dumps v))

/-- Writing a payload to a file, overwriting silently: the cache write of
heatmapper.py lines 139-140. -/
def store_file {K : Type} [DecidableEq K] (fs : K → Option String)
    (filename : K) (contents : String) : K → Option String :=
  fun k => if k = filename then some contents else fs k

/-- Python subscripting v[key] with a string key: dict lookup (KeyError
when the key is absent); subscripting any non-dict JSON value with a
string raises TypeError. -/
def json_subscript (v : JSON) (key : String) : Except PyExc JSON :=
  match v with
  | JSON.obj fields =>
    (match fields.lookup key with
     | some x => .ok x
     | none => .error .keyError)
  | _ => .error .typeError

/-- topo.py lines 81-90: json.loads the input (TypeError when the input is
None, as json.loads(None) raises; JSONDecodeError, a ValueError, when it is
not valid JSON) and return obj["table"]["rows"], with no validation of the
rows themselves. -/
def get_topo_data_from_string (data_string : Option String) :
    Except PyExc JSON :=
  match data_string with
  | none => .error .typeError
  | some s =>
    match json_parse s with
    | none => .error .valueError
    | some v =>
      match json_subscript v "table" with
      | .error e => .error e
      | .ok t => json_subscript t "rows"

/-- The per-row subscripting e[0], e[1], e[2] of heatmapper.py lines 46-49,
narrowed to rows that are arrays of at least three numbers: shorter arrays
raise IndexError; non-array rows and non-numeric entries raise TypeError
(in Python a non-numeric entry would fail slightly later, at the first
comparison or division applied to it). -/
def sample_of_row (row : JSON) : Except PyExc Sample :=
  match row with
  | JSON.arr (a :: b :: c :: _) =>
    (match a, b, c with
     | JSON.num la, JSON.num lo, JSON.num al =>
       .ok (((la : ℚ), (lo : ℚ), (al : ℚ)) : ℚ × ℚ × ℚ)
     | _, _, _ => .error .typeError)
  | JSON.arr _ => .error .indexError
  | _ => .error .typeError

/-- Iterating the decoded rows value the way generate_map does: a non-array
rows value raises TypeError; each row is narrowed by sample_of_row. -/
def extract_rows (rows : JSON) : Except PyExc (List Sample) :=
  match rows with
  | JSON.arr rs => mapE sample_of_row rs
  | _ => .error .typeError

/-- heatmapper.py lines 135-140: the cache file name is a deterministic
encoding of the six resolved parameters, modelled by keying the file store
on the resolved TopoParams value itself; when the file is absent, fetch
from the web (counted) and write the raw payload. Returns the updated
store and the number of read_json_from_web calls performed. -/
def cache_phase (fs : TopoParams → Option String) (key : TopoParams)
    (web_payload : String) : (TopoParams → Option String) × ℕ :=
  match fs key with
  | some _ => (fs, 0)
  | none => (store_file fs key web_payload, 1)

/-- heatmapper.py lines 90-146, generate_map_with_coordinates: resolve the
strides, fetch-or-cache, read the cache file back, decode table.rows, run
generate_map (whose Boolean result the code discards, line 144) and return
True. The web service is modelled by the payload web_payload it would
return; the result carries the updated cache store and the fetch count. -/
def generate_map_with_coordinates (fs : TopoParams → Option String)
    (web_payload : String) (p : TopoParams)
    (image_width image_height : ℤ) :
    Except PyExc ((TopoParams → Option String) × ℕ × Bool) :=
  match resolve_params p image_height with
  | .error e => .error e
  | .ok rp =>
    let fsn := cache_phase fs rp web_payload
    match read_json_from_file fsn.1 rp with
    | .error e => .error e
    | .ok contents =>
      match get_topo_data_from_string contents with
      | .error e => .error e
      | .ok rows =>
        match extract_rows rows with
        | .error e => .error e
        | .ok samples =>
          match generate_map samples image_width image_height with
          | .error e => .error e
          | .ok _ => .ok (fsn.1, fsn.2, true)

theorem qabs_eq_abs (a : ℚ) : qabs a = |a| := by
  rw [qabs]
  by_cases h : a < 0
  · rw [if_pos h, abs_of_neg h]
  · rw [if_neg h, abs_of_nonneg (le_of_not_lt h)]

theorem qmin_eq_min (a b : ℚ) : qmin a b = min a b := by
  rw [qmin]
  by_cases h : b < a
  · rw [if_pos h, min_eq_right (le_of_lt h)]
  · rw [if_neg h, min_eq_left (le_of_not_lt h)]

theorem qmax_eq_max (a b : ℚ) : qmax a b = max a b := by
  rw [qmax]
  by_cases h : a < b
  · rw [if_pos h, max_eq_right (le_of_lt h)]
  · rw [if_neg h, max_eq_left (le_of_not_lt h)]

theorem foldl_qmin_le_init (l : List ℚ) : ∀ x, l.foldl qmin x ≤ x := by
  induction l with
  | nil => intro x; exact le_refl x
  | cons b t ih =>
    intro x
    refine le_trans (ih (qmin x b)) ?_
    rw [qmin_eq_min]; exact min_le_left x b

theorem foldl_qmin_le_mem (l : List ℚ) : ∀ x a, a ∈ l → l.foldl qmin x ≤ a := by
  induction l with
  | nil => intro x a ha; cases ha
  | cons b t ih =>
    intro x a ha
    rcases List.mem_cons.mp ha with rfl | ha2
    · refine le_trans (foldl_qmin_le_init t (qmin x a)) ?_
      rw [qmin_eq_min]; exact min_le_right x a
    · exact ih (qmin x b) a ha2

theorem pymin_le {l : List ℚ} {a : ℚ} (ha : a ∈ l) : pymin l ≤ a := by
  cases l with
  | nil => cases ha
  | cons x t =>
    rcases List.mem_cons.mp ha with rfl | h2
    · exact foldl_qmin_le_init t a
    · exact foldl_qmin_le_mem t x a h2

theorem foldl_qmax_init_le (l : List ℚ) : ∀ x, x ≤ l.foldl qmax x := by
  induction l with
  | nil => intro x; exact le_refl x
  | cons b t ih =>
    intro x
    refine le_trans ?_ (ih (qmax x b))
    rw [qmax_eq_max]; exact le_max_left x b

theorem foldl_qmax_mem_le (l : List ℚ) : ∀ x a, a ∈ l → a ≤ l.foldl qmax x := by
  induction l with
  | nil => intro x a ha; cases ha
  | cons b t ih =>
    intro x a ha
    rcases List.mem_cons.mp ha with rfl | ha2
    · refine le_trans ?_ (foldl_qmax_init_le t (qmax x a))
      rw [qmax_eq_max]; exact le_max_right x a
    · exact ih (qmax x b) a ha2

theorem le_pymax {l : List ℚ} {a : ℚ} (ha : a ∈ l) : a ≤ pymax l := by
  cases l with
  | nil => cases ha
  | cons x t =>
    rcases List.mem_cons.mp ha with rfl | h2
    · exact foldl_qmax_init_le t a
    · exact foldl_qmax_mem_le t x a h2

theorem int_trunc_eq_floor {q : ℚ} (h : 0 ≤ q) : int_trunc q = ⌊q⌋ := by
  rw [int_trunc, if_pos h]

theorem int_trunc_bounds {q : ℚ} (h0 : 0 ≤ q) (h255 : q ≤ 255) :
    0 ≤ int_trunc q ∧ int_trunc q ≤ 255 := by
  rw [int_trunc_eq_floor h0]
  constructor
  · exact Int.floor_nonneg.mpr h0
  · have : (⌊q⌋ : ℚ) ≤ 255 := le_trans (Int.floor_le q) h255
    exact_mod_cast this

/-- C2: for altitude h below zero with min_altitude below zero the color is
(0, 0, 255 - floor((abs h / abs min_altitude) * 255)), and for h at least
zero with max_altitude above zero it is (0, 255 - floor((h / max_altitude)
* 255), 0); the int() truncation of the code agrees with floor because the
scaled ratio is nonnegative in both cases. -/
theorem calculate_color_formula (h mn mx : ℚ) :
    (h < 0 → mn < 0 →
      calculate_color h mn mx = .ok (0, 0, 255 - ⌊|h| / |mn| * 255⌋)) ∧
    (0 ≤ h → 0 < mx →
      calculate_color h mn mx = .ok (0, 255 - ⌊h / mx * 255⌋, 0)) := by
  constructor
  · intro hh hmn
    have h1 : ¬ qabs mn = 0 := by
      rw [qabs_eq_abs]; exact abs_ne_zero.mpr (ne_of_lt hmn)
    simp only [calculate_color, if_pos hh, if_neg h1]
    have h2 : (0 : ℚ) ≤ qabs h / qabs mn * 255 := by
      rw [qabs_eq_abs, qabs_eq_abs]; positivity
    rw [int_trunc_eq_floor h2, qabs_eq_abs, qabs_eq_abs]
  · intro hh hmx
    have h1 : ¬ h < 0 := not_lt.mpr hh
    have h2 : ¬ mx = 0 := ne_of_gt hmx
    simp only [calculate_color, if_neg h1, if_neg h2]
    have h3 : (0 : ℚ) ≤ h / mx * 255 := by positivity
    rw [int_trunc_eq_floor h3]

/-- C2 witness: the color formula evaluated at altitude -3 with extremes
(-6, 10), and at altitude 5 with the same extremes. -/
theorem calculate_color_formula_witness :
    calculate_color (-3) (-6) 10 =
      .ok (0, 0, 255 - ⌊|(-3 : ℚ)| / |(-6 : ℚ)| * 255⌋) ∧
    calculate_color 5 (-6) 10 = .ok (0, 255 - ⌊(5 : ℚ) / 10 * 255⌋, 0) :=
  ⟨(calculate_color_formula (-3) (-6) 10).1 (by norm_num) (by norm_num),
   (calculate_color_formula 5 (-6) 10).2 (by norm_num) (by norm_num)⟩

/-- C3 counterexample: the color computation is NOT guarded against division
by zero. With altitude 0 and max_altitude 0 it raises ZeroDivisionError
instead of returning (0, 255, 0), and with altitude -1 and min_altitude 0 it
raises ZeroDivisionError instead of returning (0, 0, 255). -/
theorem calculate_color_guard_ctex :
    calculate_color 0 0 0 = .error .zeroDivisionError ∧
    calculate_color (-1) 0 5 = .error .zeroDivisionError := by decide

/-- C3 amended: calculate_color has no division-by-zero guard: when the
applicable divisor is zero it raises ZeroDivisionError, and generate_map
does not catch it (it catches only ValueError), so the exception escapes to
the caller. -/
theorem calculate_color_div_by_zero (h mn mx : ℚ) :
    (0 ≤ h → mx = 0 → calculate_color h mn mx = .error .zeroDivisionError) ∧
    (h < 0 → mn = 0 → calculate_color h mn mx = .error .zeroDivisionError) ∧
    (∀ s : List Sample, ∀ w ht : ℤ,
      generate_map_run s w ht = .error .zeroDivisionError →
      generate_map s w ht = .error .zeroDivisionError) := by
  refine ⟨fun hh hmx => ?_, fun hh hmn => ?_, fun s w ht hrun => ?_⟩
  · simp only [calculate_color, if_neg (not_lt.mpr hh), hmx, if_true]
  · have h1 : qabs mn = 0 := by rw [hmn]; rfl
    simp only [calculate_color, if_pos hh, h1, if_true]
  · simp only [generate_map, hrun]

/-- C3 amended witness: the division-by-zero behaviour at concrete inputs,
and the escape of the exception out of generate_map on the empty sample
list. -/
theorem calculate_color_div_by_zero_witness :
    calculate_color 0 0 0 = .error .zeroDivisionError ∧
    calculate_color (-1) 0 5 = .error .zeroDivisionError ∧
    generate_map ([] : List Sample) 10 10 = .error .zeroDivisionError :=
  ⟨(calculate_color_div_by_zero 0 0 0).1 (by norm_num) rfl,
   (calculate_color_div_by_zero (-1) 0 5).2.1 (by norm_num) rfl,
   (calculate_color_div_by_zero 0 0 0).2.2 [] 10 10 (by decide)⟩

/-- C5: for every altitude h between the extremes, with the applicable
divisor nonzero, the computed color has its unused channels exactly 0 (red
and green when h is negative, red and blue otherwise) and its scaled channel
within [0, 255]. When h is negative, min_altitude is automatically negative,
so only the nonnegative case needs the nonzero-divisor hypothesis. -/
theorem calculate_color_channels (h mn mx : ℚ)
    (h1 : mn ≤ h) (h2 : h ≤ mx) (h3 : 0 ≤ h → mx ≠ 0) :
    ∃ t : ℤ × ℤ × ℤ, calculate_color h mn mx = .ok t ∧
      (h < 0 → t.1 = 0 ∧ t.2.1 = 0 ∧ 0 ≤ t.2.2 ∧ t.2.2 ≤ 255) ∧
      (0 ≤ h → t.1 = 0 ∧ t.2.2 = 0 ∧ 0 ≤ t.2.1 ∧ t.2.1 ≤ 255) := by
  by_cases hh : h < 0
  · have hmn : mn < 0 := lt_of_le_of_lt h1 hh
    have habs : (0 : ℚ) < |mn| := abs_pos.mpr (ne_of_lt hmn)
    have hratio : |h| / |mn| ≤ 1 := by
      rw [div_le_one habs, abs_of_neg hh, abs_of_neg hmn]
      exact neg_le_neg h1
    have hq0 : (0 : ℚ) ≤ |h| / |mn| * 255 := by positivity
    have hq255 : |h| / |mn| * 255 ≤ 255 := by
      calc |h| / |mn| * 255 ≤ 1 * 255 :=
            mul_le_mul_of_nonneg_right hratio (by norm_num)
        _ = 255 := one_mul 255
    obtain ⟨hb0, hb255⟩ := int_trunc_bounds hq0 hq255
    refine ⟨(0, 0, 255 - int_trunc (|h| / |mn| * 255)), ?_, ?_, ?_⟩
    · simp only [calculate_color, if_pos hh, qabs_eq_abs]
      rw [if_neg (ne_of_gt habs)]
    · intro _
      refine ⟨rfl, rfl, ?_, ?_⟩ <;> dsimp only <;> omega
    · intro hc; exact absurd hc (not_le.mpr hh)
  · have hge : 0 ≤ h := le_of_not_lt hh
    have hmx : 0 < mx := lt_of_le_of_ne (le_trans hge h2) (Ne.symm (h3 hge))
    have hratio : h / mx ≤ 1 := by rw [div_le_one hmx]; exact h2
    have hq0 : (0 : ℚ) ≤ h / mx * 255 := by positivity
    have hq255 : h / mx * 255 ≤ 255 := by
      calc h / mx * 255 ≤ 1 * 255 :=
            mul_le_mul_of_nonneg_right hratio (by norm_num)
        _ = 255 := one_mul 255
    obtain ⟨hb0, hb255⟩ := int_trunc_bounds hq0 hq255
    refine ⟨(0, 255 - int_trunc (h / mx * 255), 0), ?_, ?_, ?_⟩
    · simp only [calculate_color, if_neg hh]
      rw [if_neg (ne_of_gt hmx)]
    · intro hc; exact absurd hc hh
    · intro _
      refine ⟨rfl, rfl, ?_, ?_⟩ <;> dsimp only <;> omega

/-- C5 witness: the channel property at altitude -3 with extremes (-6, 10). -/
theorem calculate_color_channels_witness :
    ∃ t : ℤ × ℤ × ℤ, calculate_color (-3) (-6) 10 = .ok t ∧
      ((-3 : ℚ) < 0 → t.1 = 0 ∧ t.2.1 = 0 ∧ 0 ≤ t.2.2 ∧ t.2.2 ≤ 255) ∧
      ((0 : ℚ) ≤ -3 → t.1 = 0 ∧ t.2.2 = 0 ∧ 0 ≤ t.2.1 ∧ t.2.1 ≤ 255) :=
  calculate_color_channels (-3) (-6) 10 (by norm_num) (by norm_num)
    (by norm_num)

theorem mapE_ok (f : α → Except PyExc β) (g : α → β) :
    ∀ l : List α, (∀ a ∈ l, f a = .ok (g a)) → mapE f l = .ok (l.map g) := by
  intro l
  induction l with
  | nil => intro _; rfl
  | cons a t ih =>
    intro hall
    have ha : f a = .ok (g a) := hall a (List.mem_cons_self a t)
    have ht := ih (fun b hb => hall b (List.mem_cons_of_mem a hb))
    simp only [mapE, ha, ht, List.map_cons]

theorem grid_flatten_length (R : ℕ) (g : ℕ → ℕ → α) :
    ∀ C : ℕ,
      (((List.range C).map fun i => (List.range R).map (g i)).flatten).length
        = C * R := by
  intro C
  induction C with
  | zero => simp
  | succ n ih =>
    rw [List.range_succ, List.map_append, List.flatten_append,
      List.length_append, ih]
    simp [Nat.succ_mul]

theorem grid_flatten_getElem (R : ℕ) (g : ℕ → ℕ → α) :
    ∀ C i j, i < C → j < R →
      (((List.range C).map fun i => (List.range R).map (g i)).flatten)[i * R + j]?
        = some (g i j) := by
  intro C
  induction C with
  | zero => intro i j hi _; omega
  | succ n ih =>
    intro i j hi hj
    rw [List.range_succ, List.map_append, List.flatten_append]
    by_cases hin : i < n
    · rw [List.getElem?_append_left]
      · exact ih i j hin hj
      · rw [grid_flatten_length]
        calc i * R + j < i * R + R := by omega
          _ = (i + 1) * R := by ring
          _ ≤ n * R := Nat.mul_le_mul_right R hin
    · have hieq : i = n := by omega
      subst hieq
      rw [List.getElem?_append_right (by rw [grid_flatten_length]; omega)]
      rw [grid_flatten_length]
      have hoff : i * R + j - i * R = j := by omega
      rw [hoff]
      simp [List.getElem?_range hj]

theorem cell_cmd_ok (alts : List ℚ) (C : ℕ) (wide high : ℚ) (i j : ℕ)
    (hidx : i + C * j < alts.length) (hmax : pymax alts ≠ 0) :
    ∃ a c, alts[i + C * j]? = some a ∧
      calculate_color a (pymin alts) (pymax alts) = .ok c ∧
      cell_cmd alts C wide high i j =
        .ok ⟨(i : ℚ) * wide, (j : ℚ) * high,
             ((i : ℚ) + 1) * wide, ((j : ℚ) + 1) * high, c⟩ := by
  have hsome : alts[i + C * j]? = some alts[i + C * j] :=
    List.getElem?_eq_getElem hidx
  have hmem : alts[i + C * j] ∈ alts := List.getElem_mem hidx
  have hcol : ∃ c, calculate_color alts[i + C * j] (pymin alts) (pymax alts)
      = .ok c := by
    by_cases ha : alts[i + C * j] < 0
    · have hmn : pymin alts < 0 := lt_of_le_of_lt (pymin_le hmem) ha
      exact ⟨_, (calculate_color_formula _ _ _).1 ha hmn⟩
    · have hge : (0 : ℚ) ≤ alts[i + C * j] := le_of_not_lt ha
      have hmx : 0 < pymax alts :=
        lt_of_le_of_ne (le_trans hge (le_pymax hmem)) (Ne.symm hmax)
      exact ⟨_, (calculate_color_formula _ _ _).2 hge hmx⟩
  obtain ⟨c, hc⟩ := hcol
  refine ⟨alts[i + C * j], c, hsome, hc, ?_⟩
  simp only [cell_cmd, hsome, hc]

theorem cell_cmd_eq_val (alts : List ℚ) (C : ℕ) (wide high : ℚ) (i j : ℕ)
    (d : DrawCmd) (h : cell_cmd alts C wide high i j = .ok d) :
    cell_cmd alts C wide high i j =
      .ok (cell_cmd_val alts C wide high i j) := by
  rw [h, cell_cmd_val, h]

/-- C1 counterexample: a sample sequence forming a valid 1 by 2 grid with
positive width and height on which generate_map paints nothing: all
altitudes are at most 0 with maximum exactly 0, so the first color
computation divides by zero and the whole render raises ZeroDivisionError
instead of painting the cells. -/
theorem generate_map_cells_ctex :
    (exZeroMax.map fun e => e.1).dedup.length = 1 ∧
    (exZeroMax.map fun e => e.2.1).dedup.length = 2 ∧
    exZeroMax.length = 1 * 2 ∧
    generate_map_run exZeroMax 1 1 = .error .zeroDivisionError := by decide

/-- C1 amended: for every nonempty sample sequence forming a valid R by C
grid with positive width and height, provided additionally that the
maximum altitude is nonzero (otherwise the color computation divides by
zero and nothing is painted), generate_map paints cell (i, j) as the
filled rectangle from
(i * (width / C), j * (height / R)) to ((i+1) * (width / C),
(j+1) * (height / R)), with exact (unrounded) cell dimensions, and with the
color computed from the altitude of samples[i + C * j]. -/
theorem generate_map_cells (samples : List Sample) (width height : ℤ)
    (R C : ℕ)
    (hR : (samples.map fun e => e.1).dedup.length = R)
    (hC : (samples.map fun e => e.2.1).dedup.length = C)
    (hlen : samples.length = R * C)
    (hne : samples ≠ [])
    (hw : 0 < width) (hh : 0 < height)
    (hmax : pymax (samples.map fun e => e.2.2) ≠ 0) :
    ∃ cmds : List DrawCmd,
      generate_map_run samples width height = .ok cmds ∧
      cmds.length = C * R ∧
      ∀ i j, i < C → j < R →
        ∃ a c, (samples.map fun e => e.2.2)[i + C * j]? = some a ∧
          calculate_color a (pymin (samples.map fun e => e.2.2))
            (pymax (samples.map fun e => e.2.2)) = .ok c ∧
          cmds[i * R + j]? = some
            ⟨(i : ℚ) * ((width : ℚ) / (C : ℚ)),
             (j : ℚ) * ((height : ℚ) / (R : ℚ)),
             ((i : ℚ) + 1) * ((width : ℚ) / (C : ℚ)),
             ((j : ℚ) + 1) * ((height : ℚ) / (R : ℚ)), c⟩ := by
  have hRne : R ≠ 0 := fun h0 =>
    hne (List.length_eq_zero.mp (by rw [hlen, h0, Nat.zero_mul]))
  have hCne : C ≠ 0 := fun h0 =>
    hne (List.length_eq_zero.mp (by rw [hlen, h0, Nat.mul_zero]))
  have hidx : ∀ i j, i < C → j < R →
      i + C * j < (samples.map fun e => e.2.2).length := by
    intro i j hi hj
    rw [List.length_map, hlen]
    calc i + C * j < C + C * j := by omega
      _ = C * (j + 1) := by ring
      _ ≤ C * R := Nat.mul_le_mul_left C (by omega)
      _ = R * C := Nat.mul_comm C R
  have hcell : ∀ i j, i < C → j < R →
      ∃ a c, (samples.map fun e => e.2.2)[i + C * j]? = some a ∧
        calculate_color a (pymin (samples.map fun e => e.2.2))
          (pymax (samples.map fun e => e.2.2)) = .ok c ∧
        cell_cmd (samples.map fun e => e.2.2) C
            ((width : ℚ) / (C : ℚ)) ((height : ℚ) / (R : ℚ)) i j =
          .ok ⟨(i : ℚ) * ((width : ℚ) / (C : ℚ)),
               (j : ℚ) * ((height : ℚ) / (R : ℚ)),
               ((i : ℚ) + 1) * ((width : ℚ) / (C : ℚ)),
               ((j : ℚ) + 1) * ((height : ℚ) / (R : ℚ)), c⟩ :=
    fun i j hi hj =>
      cell_cmd_ok (samples.map fun e => e.2.2) C _ _ i j
        (hidx i j hi hj) hmax
  have hinner : ∀ i ∈ List.range C,
      mapE (cell_cmd (samples.map fun e => e.2.2) C
          ((width : ℚ) / (C : ℚ)) ((height : ℚ) / (R : ℚ)) i)
        (List.range R)
      = .ok ((List.range R).map (cell_cmd_val (samples.map fun e => e.2.2) C
          ((width : ℚ) / (C : ℚ)) ((height : ℚ) / (R : ℚ)) i)) := by
    intro i hi
    apply mapE_ok
    intro j hj
    obtain ⟨a, c, _, _, heq⟩ :=
      hcell i j (List.mem_range.mp hi) (List.mem_range.mp hj)
    exact cell_cmd_eq_val _ _ _ _ _ _ _ heq
  have houter :
      mapE (fun i => mapE (cell_cmd (samples.map fun e => e.2.2) C
          ((width : ℚ) / (C : ℚ)) ((height : ℚ) / (R : ℚ)) i)
        (List.range R)) (List.range C)
      = .ok ((List.range C).map fun i => (List.range R).map
          (cell_cmd_val (samples.map fun e => e.2.2) C
            ((width : ℚ) / (C : ℚ)) ((height : ℚ) / (R : ℚ)) i)) :=
    mapE_ok _ _ _ hinner
  refine ⟨((List.range C).map fun i => (List.range R).map
      (cell_cmd_val (samples.map fun e => e.2.2) C
        ((width : ℚ) / (C : ℚ)) ((height : ℚ) / (R : ℚ)) i)).flatten,
    ?_, ?_, ?_⟩
  · simp only [generate_map_run]
    rw [hR, hC, if_neg hRne, if_neg hCne,
      if_neg (by push_neg; omega : ¬ (width < 0 ∨ height < 0))]
    rw [houter]
  · exact grid_flatten_length R _ C
  · intro i j hi hj
    obtain ⟨a, c, h1, h2, heq⟩ := hcell i j hi hj
    refine ⟨a, c, h1, h2, ?_⟩
    rw [grid_flatten_getElem R _ C i j hi hj]
    simp only [cell_cmd_val, heq]

set_option maxRecDepth 4000 in
/-- C1 witness: the docstring example grid (4 distinct latitudes, 3 distinct
longitudes, 12 samples) rendered at 100 by 100. -/
theorem generate_map_cells_witness :
    ∃ cmds : List DrawCmd,
      generate_map_run ex12 100 100 = .ok cmds ∧
      cmds.length = 3 * 4 ∧
      ∀ i j, i < 3 → j < 4 →
        ∃ a c, (ex12.map fun e => e.2.2)[i + 3 * j]? = some a ∧
          calculate_color a (pymin (ex12.map fun e => e.2.2))
            (pymax (ex12.map fun e => e.2.2)) = .ok c ∧
          cmds[i * 4 + j]? = some
            ⟨(i : ℚ) * ((100 : ℚ) / ((3 : ℕ) : ℚ)),
             (j : ℚ) * ((100 : ℚ) / ((4 : ℕ) : ℚ)),
             ((i : ℚ) + 1) * ((100 : ℚ) / ((3 : ℕ) : ℚ)),
             ((j : ℚ) + 1) * ((100 : ℚ) / ((4 : ℕ) : ℚ)), c⟩ :=
  generate_map_cells ex12 100 100 4 3 (by decide) (by decide) (by decide)
    (by simp [ex12]) (by decide) (by decide) (by decide)

/-- C4 counterexample: on 11 samples whose distinct counts imply a 4 by 3
grid, generate_map raises an unhandled IndexError (IndexError is not a
ValueError, so the except clause does not catch it) instead of returning an
explicit failure result. -/
theorem generate_map_failure_ctex :
    generate_map ex11 99 100 = .error .indexError := by decide

/-- C4 amended: generate_map fails on the three conditions but only the
negative-dimension case yields the explicit failure result False (Pillow
raises ValueError there, which the except clause catches); the grid
mismatch with too few samples raises an unhandled IndexError, and the empty
sample set raises an unhandled ZeroDivisionError. No image file is written
on any failing path, since im.save is reached only after all cells render. -/
theorem generate_map_failure_modes :
    generate_map ex11 99 100 = .error .indexError ∧
    (∀ w h : ℤ,
      generate_map ([] : List Sample) w h = .error .zeroDivisionError) ∧
    (∀ samples : List Sample, ∀ w h : ℤ, samples ≠ [] → w < 0 ∨ h < 0 →
      generate_map samples w h = .ok false) := by
  refine ⟨by decide, fun w h => rfl, fun s w h hne hneg => ?_⟩
  have h1 : (s.map fun e => e.1).dedup.length ≠ 0 := by
    simp only [ne_eq, List.length_eq_zero, List.dedup_eq_nil,
      List.map_eq_nil_iff]
    exact hne
  have h2 : (s.map fun e => e.2.1).dedup.length ≠ 0 := by
    simp only [ne_eq, List.length_eq_zero, List.dedup_eq_nil,
      List.map_eq_nil_iff]
    exact hne
  simp only [generate_map, generate_map_run, if_neg h1, if_neg h2,
    if_pos hneg]

/-- C4 amended witness: the empty sample set raises ZeroDivisionError at
dimensions 7 by 9; the valid 12-sample grid with width -1 returns False. -/
theorem generate_map_failure_modes_witness :
    generate_map ([] : List Sample) 7 9 = .error .zeroDivisionError ∧
    generate_map ex12 (-1) 100 = .ok false :=
  ⟨generate_map_failure_modes.2.1 7 9,
   generate_map_failure_modes.2.2 ex12 (-1) 100 (by simp [ex12])
     (Or.inl (by norm_num))⟩

theorem resolve_stride_eq (stride lo hi : ℚ) (ih : ℤ) (hih : ih ≠ 0) :
    resolve_stride stride lo hi ih =
      .ok (if stride = 0
        then ((⌊qmax 1 ((hi - lo) / default_cell_degrees / (ih : ℚ))⌋ : ℤ) : ℚ)
        else stride) := by
  rw [resolve_stride]
  by_cases hs : stride = 0
  · rw [if_pos hs, if_neg hih, if_pos hs]
    have h1 : (1 : ℚ) ≤ qmax 1 ((hi - lo) / default_cell_degrees / (ih : ℚ)) := by
      rw [qmax_eq_max]; exact le_max_left 1 _
    rw [int_trunc_eq_floor (by linarith)]
  · rw [if_neg hs, if_neg hs]

/-- C6 counterexample: with latitude span 0.02249991 (exactly 2.7 cells),
image height 1 and stride 0, the code computes int(max(1, 2.7)) = 2, while
the formula of the claim, max(1, round(2.7)), gives 3: the code truncates
where the claim rounds. -/
theorem resolve_stride_round_ctex :
    resolve_stride 0 0 (2249991 / 100000000) 1 = .ok 2 ∧
    claimed_auto_stride 0 (2249991 / 100000000) 1 = 3 := by
  constructor
  · rw [resolve_stride_eq 0 0 (2249991 / 100000000) 1 (by norm_num),
      if_pos rfl]
    have hval : ((2249991 : ℚ) / 100000000 - 0) / default_cell_degrees
        / ((1 : ℤ) : ℚ) = 27 / 10 := by
      rw [default_cell_degrees]; norm_num
    rw [hval, qmax]
    norm_num
  · rw [claimed_auto_stride]
    have hval : ((2249991 : ℚ) / 100000000 - 0) / default_cell_degrees
        / ((1 : ℤ) : ℚ) = 27 / 10 := by
      rw [default_cell_degrees]; norm_num
    rw [hval, round_eq]
    norm_num

/-- C6 amended: for nonzero image_height, a zero input stride resolves to
the floor of max(1, (max - min) / 0.0083333 / image_height) - that is,
int() truncation applied after the clamp to at least 1, not rounding - for
latitude and, dividing by image_height for both axes, for longitude alike;
every nonzero input stride passes through unchanged. -/
theorem resolve_params_strides (p : TopoParams) (ih : ℤ) (hih : ih ≠ 0) :
    ∃ ls gs,
      resolve_params p ih =
        .ok ⟨p.min_lat, p.max_lat, ls, p.min_lng, p.max_lng, gs⟩ ∧
      (p.lat_stride = 0 → ls = ((⌊qmax 1 ((p.max_lat - p.min_lat)
        / default_cell_degrees / (ih : ℚ))⌋ : ℤ) : ℚ)) ∧
      (p.lat_stride ≠ 0 → ls = p.lat_stride) ∧
      (p.lng_stride = 0 → gs = ((⌊qmax 1 ((p.max_lng - p.min_lng)
        / default_cell_degrees / (ih : ℚ))⌋ : ℤ) : ℚ)) ∧
      (p.lng_stride ≠ 0 → gs = p.lng_stride) := by
  refine ⟨if p.lat_stride = 0
      then ((⌊qmax 1 ((p.max_lat - p.min_lat)
        / default_cell_degrees / (ih : ℚ))⌋ : ℤ) : ℚ)
      else p.lat_stride,
    if p.lng_stride = 0
      then ((⌊qmax 1 ((p.max_lng - p.min_lng)
        / default_cell_degrees / (ih : ℚ))⌋ : ℤ) : ℚ)
      else p.lng_stride, ?_, ?_, ?_, ?_, ?_⟩
  · simp only [resolve_params, resolve_stride_eq _ _ _ _ hih]
  · intro h; rw [if_pos h]
  · intro h; rw [if_neg h]
  · intro h; rw [if_pos h]
  · intro h; rw [if_neg h]

theorem gmwc_ok_inv (fs : TopoParams → Option String) (web : String)
    (p rp : TopoParams) (iw ih : ℤ)
    (hres : resolve_params p ih = .ok rp) :
    ∀ r, generate_map_with_coordinates fs web p iw ih = .ok r →
      r = ((cache_phase fs rp web).1, (cache_phase fs rp web).2, true) := by
  intro r hr
  simp only [generate_map_with_coordinates, hres] at hr
  cases h1 : read_json_from_file (cache_phase fs rp web).1 rp with
  | error e => simp only [h1] at hr; exact Except.noConfusion hr
  | ok contents =>
    simp only [h1] at hr
    cases h2 : get_topo_data_from_string contents with
    | error e => simp only [h2] at hr; exact Except.noConfusion hr
    | ok rows =>
      simp only [h2] at hr
      cases h3 : extract_rows rows with
      | error e => simp only [h3] at hr; exact Except.noConfusion hr
      | ok samples =>
        simp only [h3] at hr
        cases h4 : generate_map samples iw ih with
        | error e => simp only [h4] at hr; exact Except.noConfusion hr
        | ok b =>
          simp only [h4] at hr
          injection hr with h
          exact h.symm

/-- C7: calling the fetch-or-cache entry point twice with the same six
parameters (and the same image size, which the resolved strides and hence
the cache key may depend on) performs exactly one remote fetch: the first
call fetches once and creates the cache entry holding the raw payload, and
the second call fetches zero times and leaves the store unchanged - it
reads the existing cache entry instead of querying the remote service. -/
theorem cache_idempotence (fs : TopoParams → Option String)
    (p rp : TopoParams) (iw ih : ℤ) (web web2 : String)
    (hres : resolve_params p ih = .ok rp)
    (habsent : fs rp = none) :
    (cache_phase fs rp web).2 = 1 ∧
    (cache_phase fs rp web).1 rp = some web ∧
    (cache_phase (cache_phase fs rp web).1 rp web2).2 = 0 ∧
    (cache_phase (cache_phase fs rp web).1 rp web2).1 =
      (cache_phase fs rp web).1 ∧
    (∀ r, generate_map_with_coordinates fs web p iw ih = .ok r →
      r.2.1 = 1) ∧
    (∀ r2, generate_map_with_coordinates (cache_phase fs rp web).1 web2
        p iw ih = .ok r2 → r2.2.1 = 0) := by
  have hphase : cache_phase fs rp web = (store_file fs rp web, 1) := by
    simp [cache_phase, habsent]
  have hhit : store_file fs rp web rp = some web := by simp [store_file]
  have hphase2 : cache_phase (store_file fs rp web) rp web2 =
      (store_file fs rp web, 0) := by
    simp [cache_phase, hhit]
  refine ⟨by rw [hphase], by rw [hphase]; exact hhit,
    by rw [hphase, hphase2], by rw [hphase, hphase2], ?_, ?_⟩
  · intro r hr
    rw [gmwc_ok_inv fs web p rp iw ih hres r hr, hphase]
  · intro r2 hr2
    rw [gmwc_ok_inv (cache_phase fs rp web).1 web2 p rp iw ih hres r2 hr2,
      hphase, hphase2]

/-- C7 witness: an empty cache, parameters with nonzero strides (which
resolve to themselves), two different web payloads. -/
theorem cache_idempotence_witness :
    (cache_phase (fun _ => none) ⟨0, 1, 1, 0, 1, 1⟩ "payload").2 = 1 ∧
    (cache_phase (fun _ => none) ⟨0, 1, 1, 0, 1, 1⟩ "payload").1
      ⟨0, 1, 1, 0, 1, 1⟩ = some "payload" ∧
    (cache_phase (cache_phase (fun _ => none) ⟨0, 1, 1, 0, 1, 1⟩
      "payload").1 ⟨0, 1, 1, 0, 1, 1⟩ "payload2").2 = 0 ∧
    (cache_phase (cache_phase (fun _ => none) ⟨0, 1, 1, 0, 1, 1⟩
      "payload").1 ⟨0, 1, 1, 0, 1, 1⟩ "payload2").1 =
      (cache_phase (fun _ => none) ⟨0, 1, 1, 0, 1, 1⟩ "payload").1 ∧
    (∀ r, generate_map_with_coordinates (fun _ => none) "payload"
        ⟨0, 1, 1, 0, 1, 1⟩ 5 10 = .ok r → r.2.1 = 1) ∧
    (∀ r2, generate_map_with_coordinates
        (cache_phase (fun _ => none) ⟨0, 1, 1, 0, 1, 1⟩ "payload").1
        "payload2" ⟨0, 1, 1, 0, 1, 1⟩ 5 10 = .ok r2 → r2.2.1 = 0) :=
  cache_idempotence (fun _ => none) ⟨0, 1, 1, 0, 1, 1⟩ ⟨0, 1, 1, 0, 1, 1⟩
    5 10 "payload" "payload2" (by rfl) rfl

/-- C8 counterexample: the internal render step fails, returning the
explicit failure result False (negative image width), yet the entry point
generate_map_with_coordinates reports success: it returns True. -/
theorem gmwc_swallows_failure_ctex :
    generate_map [((0:ℚ), (0:ℚ), (1:ℚ)), ((0:ℚ), (1:ℚ), (2:ℚ))] (-1) 10 =
      .ok false ∧
    ∃ f, generate_map_with_coordinates (fun _ => none)
      "\x7b\"table\": \x7b\"rows\": [[0, 0, 1], [0, 1, 2]]\x7d\x7d"
      ⟨0, 1, 1, 0, 1, 1⟩ (-1) 10 = .ok (f, 1, true) :=
  ⟨by decide, _, by rfl⟩

/-- C8 amended: generate_map_with_coordinates discards the Boolean result
of generate_map and returns True whenever the render step terminates with
either Boolean; only exceptions raised inside the pipeline (including those
escaping generate_map) surface to its caller. -/
theorem gmwc_discards_render_result (fs : TopoParams → Option String)
    (web : String) (p rp : TopoParams) (iw ih : ℤ)
    (contents : Option String) (rows : JSON) (samples : List Sample)
    (hres : resolve_params p ih = .ok rp)
    (hread : read_json_from_file (cache_phase fs rp web).1 rp =
      .ok contents)
    (hdec : get_topo_data_from_string contents = .ok rows)
    (hext : extract_rows rows = .ok samples) :
    (∀ b, generate_map samples iw ih = .ok b →
      generate_map_with_coordinates fs web p iw ih =
        .ok ((cache_phase fs rp web).1, (cache_phase fs rp web).2, true)) ∧
    (∀ e, generate_map samples iw ih = .error e →
      generate_map_with_coordinates fs web p iw ih = .error e) := by
  constructor
  · intro b hgen
    simp only [generate_map_with_coordinates, hres, hread, hdec, hext, hgen]
  · intro e hgen
    simp only [generate_map_with_coordinates, hres, hread, hdec, hext, hgen]

/-- C8 amended witness: the concrete pipeline whose render step returns
False (negative width) still makes the entry point return True. -/
theorem gmwc_discards_render_result_witness :
    generate_map_with_coordinates (fun _ => none)
      "\x7b\"table\": \x7b\"rows\": [[0, 0, 1], [0, 1, 2]]\x7d\x7d"
      ⟨0, 1, 1, 0, 1, 1⟩ (-1) 10 =
      .ok ((cache_phase (fun _ => none) ⟨0, 1, 1, 0, 1, 1⟩
          "\x7b\"table\": \x7b\"rows\": [[0, 0, 1], [0, 1, 2]]\x7d\x7d").1,
        (cache_phase (fun _ => none) ⟨0, 1, 1, 0, 1, 1⟩
          "\x7b\"table\": \x7b\"rows\": [[0, 0, 1], [0, 1, 2]]\x7d\x7d").2,
        true) :=
  (gmwc_discards_render_result (fun _ => none)
    "\x7b\"table\": \x7b\"rows\": [[0, 0, 1], [0, 1, 2]]\x7d\x7d"
    ⟨0, 1, 1, 0, 1, 1⟩ ⟨0, 1, 1, 0, 1, 1⟩ (-1) 10
    (some "\x7b\"table\": \x7b\"rows\": [[0, 0, 1], [0, 1, 2]]\x7d\x7d")
    (JSON.arr [JSON.arr [JSON.num 0, JSON.num 0, JSON.num 1],
      JSON.arr [JSON.num 0, JSON.num 1, JSON.num 2]])
    [((0:ℚ), (0:ℚ), (1:ℚ)), ((0:ℚ), (1:ℚ), (2:ℚ))]
    (by rfl) (by rfl) (by rfl) (by rfl)).1 false (by decide)

/-- C9 counterexample: the payload written to the cache is an empty object
with an inner space; loading it back returns the two-character canonical
form, so the loaded payload is NOT byte-for-byte the stored one. -/
theorem read_json_roundtrip_ctex :
    read_json_from_file
      (store_file (fun _ : String => none) "topo_key" "\x7b \x7d")
      "topo_key" = .ok (some "\x7b\x7d") ∧
    "\x7b \x7d" ≠ "\x7b\x7d" := by
  exact ⟨by rfl, by decide⟩

/-- C9 amended: loading a stored payload returns the canonical
re-serialization json.dumps(json.load(payload)) - the same JSON value, but
not necessarily the stored bytes (and a ValueError when the stored payload
is not valid JSON); loading an absent key returns None rather than an
error. -/
theorem read_json_roundtrip (fs : String → Option String)
    (k : String) (payload : String) (v : JSON)
    (hparse : json_parse payload = some v) :
    read_json_from_file (store_file fs k payload) k =
      .ok (some (json_dumps v)) ∧
    (∀ fs2 : String → Option String, ∀ k2, fs2 k2 = none →
      read_json_from_file fs2 k2 = .ok none) := by
  constructor
  · simp only [read_json_from_file, store_file, if_pos rfl, if_true,
      hparse]
  · intro fs2 k2 h
    simp only [read_json_from_file, h]

/-- C9 amended witness: the empty-object payload round trip and an absent
key. -/
theorem read_json_roundtrip_witness :
    read_json_from_file
      (store_file (fun _ : String => none) "k" "\x7b \x7d") "k" =
      .ok (some (json_dumps (JSON.obj []))) ∧
    (∀ fs2 : String → Option String, ∀ k2, fs2 k2 = none →
      read_json_from_file fs2 k2 = .ok none) :=
  read_json_roundtrip (fun _ => none) "k" "\x7b \x7d" (JSON.obj [])
    (by rfl)

/-- C10: for every JSON payload whose parsed value has a "table" field
whose value has a "rows" field, get_topo_data_from_string returns exactly
that rows value, whatever it is: the rows are not validated, so entries
that are not 3-element rows, or not arrays at all, pass through unchanged
to the caller. -/
theorem get_topo_rows_exact (s : String) (v t r : JSON)
    (hparse : json_parse s = some v)
    (htable : json_subscript v "table" = .ok t)
    (hrows : json_subscript t "rows" = .ok r) :
    get_topo_data_from_string (some s) = .ok r := by
  simp only [get_topo_data_from_string, hparse, htable, hrows]

/-- C10 witness: a payload whose rows value holds a 2-element row, a bare
string and a bare number; all pass through unchanged. -/
theorem get_topo_rows_exact_witness :
    get_topo_data_from_string
      (some "\x7b\"table\": \x7b\"rows\": [[1, 2], \"x\", 5]\x7d\x7d") =
      .ok (JSON.arr [JSON.arr [JSON.num 1, JSON.num 2], JSON.str "x",
        JSON.num 5]) :=
  get_topo_rows_exact
    "\x7b\"table\": \x7b\"rows\": [[1, 2], \"x\", 5]\x7d\x7d"
    (JSON.obj [("table", JSON.obj [("rows",
      JSON.arr [JSON.arr [JSON.num 1, JSON.num 2], JSON.str "x",
        JSON.num 5])])])
    (JSON.obj [("rows", JSON.arr [JSON.arr [JSON.num 1, JSON.num 2],
      JSON.str "x", JSON.num 5])])
    (JSON.arr [JSON.arr [JSON.num 1, JSON.num 2], JSON.str "x",
      JSON.num 5])
    (by rfl) (by rfl) (by rfl)

/-- C6 witness: parameters with a zero latitude stride and a nonzero
longitude stride, at image height 1. -/
theorem resolve_params_strides_witness :
    ∃ ls gs,
      resolve_params ⟨0, 2249991 / 100000000, 0, 10, 20, 5⟩ 1 =
        .ok ⟨0, 2249991 / 100000000, ls, 10, 20, gs⟩ ∧
      ((0 : ℚ) = 0 → ls = ((⌊qmax 1 (((2249991 : ℚ) / 100000000 - 0)
        / default_cell_degrees / ((1 : ℤ) : ℚ))⌋ : ℤ) : ℚ)) ∧
      ((0 : ℚ) ≠ 0 → ls = 0) ∧
      ((5 : ℚ) = 0 → gs = ((⌊qmax 1 (((20 : ℚ) - 10)
        / default_cell_degrees / ((1 : ℤ) : ℚ))⌋ : ℤ) : ℚ)) ∧
      ((5 : ℚ) ≠ 0 → gs = 5) :=
  resolve_params_strides ⟨0, 2249991 / 100000000, 0, 10, 20, 5⟩ 1
    (by norm_num)

end Heatmapper
